import Mathlib

/-!
Verification development for the NV200 piezo-controller client library
(communication core: wire codec, command client, discovery, timing
calculators).  Python sources are shallowly embedded: machine/float
arithmetic is modelled over `Int`/`Rat`, fallible code over `Option` /
`Except`, and the asynchronous environment (whether a reply arrives in
time, what a device answers) is passed as an explicit argument.  Python
strings are modelled as `String` / `List Char`.
-/

deriving instance DecidableEq for Except

namespace NV200

/-! ## Wire codec: the response parser of the device client
(device_interface.py) -/

/-- Characters stripped by the Python calls `.strip("\x01\n\r\x00")` in
`_parse_response`. -/
def isFramingCtl (c : Char) : Bool :=
  c = '\x01' || c = '\n' || c = '\r' || c = '\x00'

/-- Remove characters satisfying `p` from both ends of a character list
(Python `str.strip(chars)` / `str.strip()`). -/
def stripEnds (p : Char → Bool) (l : List Char) : List Char :=
  ((l.dropWhile p).reverse.dropWhile p).reverse

/-- Numeric value of a list of decimal digit characters. -/
def decDigitsVal (l : List Char) : Nat :=
  l.foldl (fun a c => a * 10 + (c.toNat - 48)) 0

/-- Python `int(s)` on a string: surrounding whitespace is ignored, an
optional single sign precedes a non-empty run of decimal digits; anything
else raises `ValueError`, modelled as `none`.  (Underscore digit grouping,
which the device protocol never produces, is not modelled.) -/
def pyIntOfChars (s : List Char) : Option Int :=
  let t := stripEnds Char.isWhitespace s
  match t with
  | [] => none
  | c :: rest =>
    let digs : List Char := if c = '-' || c = '+' then rest else c :: rest
    let sign : Int := if c = '-' then -1 else 1
    if digs ≠ [] && digs.all Char.isDigit then
      some (sign * (decDigitsVal digs : Int))
    else
      none

/-- Python `s.split(sep, 1)` for a one-character separator: the part before
the first separator and, when a separator occurs, the remainder. -/
def splitOnceOn (sep : Char) : List Char → List Char × Option (List Char)
  | [] => ([], none)
  | c :: cs =>
    if c = sep then ([], some cs)
    else
      let r := splitOnceOn sep cs
      (c :: r.1, r.2)

/-- Python `s.split(sep)` for a one-character separator (full split; a
string with no separator yields the one-element list of itself). -/
def splitAllOn (sep : Char) : List Char → List (List Char)
  | [] => [[]]
  | c :: cs =>
    match splitAllOn sep cs with
    | [] => [[]]
    | h :: t => if c = sep then [] :: h :: t else (c :: h) :: t

/-- Embeds `ErrorCode.from_value`: integers 1..10 are members of the
`ErrorCode` enum; any other integer falls back to
`ERROR_NOT_SPECIFIED = 1`. -/
def errorCodeFromValue (v : Int) : Int :=
  if 1 ≤ v ∧ v ≤ 10 then v else 1

/-- Possible outcomes of `DeviceClient._parse_response`.

Constructor `deviceError code` models
`raise DeviceError(ErrorCode.from_value(code))`.
Constructor `attributeError` models the crash inside
`DeviceError(1).__init__`: the literal `1` is an `int`, not an `ErrorCode`
member, so the line `f"Error \x7bself.error_code.value\x7d: ..."` evaluates
`(1).value` and raises `AttributeError` before any `DeviceError` is raised.
Constructor `retNone` models the implicit `return None` when the error
branch test `if len(parts) > 1` fails (no comma after the sentinel):
neither `raise` nor the `else` branch runs and the function falls off its
end. -/
inductive ParseOutcome where
  | ok (command : String) (parameters : List String)
  | deviceError (code : Int)
  | attributeError
  | retNone
  deriving DecidableEq, Repr

/-- Embeds `DeviceClient._parse_response` (device_interface.py lines
202-234) on the UTF-8 decoded response string. -/
def parseResponse (response : String) : ParseOutcome :=
  let chars := response.toList
  if ("error".toList).isPrefixOf chars then
    let parts := splitOnceOn ',' chars
    match parts.2 with
    | some rest =>
      match pyIntOfChars (stripEnds isFramingCtl rest) with
      | some code => .deviceError (errorCodeFromValue code)
      | none => .attributeError
    | none => .retNone
  else
    let parts := splitOnceOn ',' chars
    let command : String := ⟨stripEnds Char.isWhitespace parts.1⟩
    let parameters : List String :=
      match parts.2 with
      | some rest => (splitAllOn ',' rest).map (fun p => ⟨stripEnds isFramingCtl p⟩)
      | none => []
    .ok command parameters

/-! ## Command client timeout policy: the write and read operations
(device_interface.py lines 250-280).

The asynchronous environment is abstracted by an `Option String`: `some r`
means one full response line `r` arrived within the timeout of the
operation; `none` means the `asyncio.wait_for` deadline expired first. -/

/-- Outcome of `DeviceClient.write`: the reply parsed by `_parse_response`,
or `timedOutNone` for the `except asyncio.TimeoutError: return None`
path. -/
inductive WriteOutcome where
  | timedOutNone
  | parsed (o : ParseOutcome)
  deriving DecidableEq, Repr

/-- Outcome of `DeviceClient.read`: the raw reply, or a propagated
`asyncio.TimeoutError` from `asyncio.wait_for`. -/
inductive ReadOutcome where
  | timeoutError
  | value (s : String)
  deriving DecidableEq, Repr

/-- Embeds `DeviceClient.write cmd`: sends `cmd + "\r"`, waits 0.1 s for a
reply; a reply is parsed, a timeout is swallowed into `None`. -/
def clientWrite (_cmd : String) (reply : Option String) : WriteOutcome :=
  match reply with
  | some r => .parsed (parseResponse r)
  | none => .timedOutNone

/-- Embeds `DeviceClient.read cmd timeout`: sends `cmd + "\r"` and awaits
the reply through `asyncio.wait_for`, whose expiry raises `TimeoutError`
uncaught. -/
def clientRead (_cmd : String) (reply : Option String) : ReadOutcome :=
  match reply with
  | some r => .value r
  | none => .timeoutError

/-! ## Data recorder timing calculator (data_recorder.py)

Python float arithmetic is modelled over `ℚ` (every quantity involved is a
ratio of integers, and the claims are stated in exact arithmetic). -/

/-- Python `int()` applied to a number: truncation toward zero. -/
def pyTrunc (q : ℚ) : ℤ :=
  if 0 ≤ q then ⌊q⌋ else -⌊-q⌋

/-- Constant `DataRecorder.NV200_RECORDER_SAMPLE_RATE_HZ`. -/
def NV200_RECORDER_SAMPLE_RATE_HZ : ℚ := 20000

/-- Constant `DataRecorder.NV200_RECORDER_BUFFER_SIZE`. -/
def NV200_RECORDER_BUFFER_SIZE : ℤ := 6144

/-- The `DataRecorder.RecorderParam` namedtuple. -/
structure RecorderParam where
  bufsize : ℤ
  stride : ℤ
  sample_freq : ℚ
  deriving DecidableEq, Repr

/-- Embeds `DataRecorder.set_sample_buffer_size` (data_recorder.py lines
126-134): raises `ValueError` unless
`1 <= buffer_size <= NV200_RECORDER_BUFFER_SIZE`; otherwise issues the
`reclen` command. -/
def setSampleBufferSize (buffer_size : ℤ) : Except String Unit :=
  if 1 ≤ buffer_size ∧ buffer_size ≤ NV200_RECORDER_BUFFER_SIZE then .ok ()
  else .error "ValueError"

/-- Embeds `DataRecorder.set_recording_duration_ms` (data_recorder.py lines
136-161).  The `recstr` write (`set_recorder_stride`) performs no
validation; the `reclen` write (`set_sample_buffer_size`) may raise
`ValueError`, modelled through `Except`. -/
def setRecordingDurationMs (milliseconds : ℚ) : Except String RecorderParam :=
  let duration_s := milliseconds / 1000
  let buffer_duration_s := 1 / NV200_RECORDER_SAMPLE_RATE_HZ * (NV200_RECORDER_BUFFER_SIZE : ℚ)
  let stride := pyTrunc (duration_s / buffer_duration_s) + 1
  let sample_rate := NV200_RECORDER_SAMPLE_RATE_HZ / (stride : ℚ)
  let buflen := ⌈sample_rate * duration_s⌉
  let buflen2 := min buflen NV200_RECORDER_BUFFER_SIZE
  match setSampleBufferSize buflen2 with
  | .ok _ => .ok ⟨buflen2, stride, sample_rate⟩
  | .error e => .error e

/-! ## Waveform generator sample quantization (waveform_generator.py) -/

/-- Constant `WaveformGenerator.NV200_WAVEFORM_BUFFER_SIZE`. -/
def NV200_WAVEFORM_BUFFER_SIZE : ℤ := 1024

/-- Constant `WaveformGenerator.NV200_BASE_SAMPLE_TIME_US`. -/
def NV200_BASE_SAMPLE_TIME_US : ℚ := 50

/-- The timing content of the `WaveformData` built by
`WaveformGenerator.generate_sine_wave`: the quantized sample factor and
sample period, and the sample time grid `times_ms`. -/
structure SineWavePlan where
  sample_factor : ℤ
  sample_time_us : ℚ
  times_ms : List ℚ
  deriving DecidableEq, Repr

/-- Embeds `WaveformGenerator.generate_sine_wave` (waveform_generator.py
lines 196-248), timing/quantization part.  The y-values
`offset + amplitude * sin(2*pi*f*t + phase)` are real-valued samples in
one-to-one correspondence with `times_ms` (`values` is a comprehension over
`times_ms`), so the generated buffer size equals `times_ms.length`; the
transcendental sample values themselves play no role in the claims. -/
def generateSineWave (freq_hz : ℚ) : SineWavePlan :=
  let period_us := 1000000 / freq_hz
  let ideal_sample_time_us := period_us / (NV200_WAVEFORM_BUFFER_SIZE : ℚ)
  let sample_factor := ⌈ideal_sample_time_us / NV200_BASE_SAMPLE_TIME_US⌉
  let sample_time_us := (sample_factor : ℚ) * NV200_BASE_SAMPLE_TIME_US
  let sample_time_s := sample_time_us / 1000000
  let required_buffer := pyTrunc (period_us / sample_time_us)
  ⟨sample_factor, sample_time_us,
    (List.range required_buffer.toNat).map (fun (i : ℕ) => (i : ℚ) * sample_time_s * 1000)⟩

/-! ## Lantronix network discovery (lantronix_utils.py,
lantronix_device_discovery.py / lantronix_device_discovery_async.py)

A received UDP datagram is a byte payload (values 0-255) plus the sender
address; `send_udp_broadcast` on one interface yields the list of datagrams
that arrived within the timeout window, so the whole network environment is
one `List Datagram` per enumerated interface. -/

/-- One UDP reply: raw payload bytes and the sender `(ip, port)` address. -/
structure Datagram where
  payload : List Nat
  senderIp : String
  senderPort : Nat
  deriving DecidableEq, Repr

/-- One `{MAC, IP}` dictionary produced by `parse_responses`. -/
structure LanDeviceEntry where
  mac : String
  ip : String
  deriving DecidableEq, Repr

/-- Lowercase hexadecimal digit character, as produced by Python
`bytes.hex()`. -/
def hexDigit (n : Nat) : Char :=
  if n < 10 then Char.ofNat (48 + n) else Char.ofNat (87 + n)

/-- The two lowercase hex characters encoding one byte. -/
def byteHexChars (b : Nat) : List Char :=
  [hexDigit (b / 16 % 16), hexDigit (b % 16)]

/-- Python `data.hex()`: each byte contributes two hex characters. -/
def bytesHexChars (data : List Nat) : List Char :=
  data.flatMap byteHexChars

/-- MAC extraction of lantronix_utils.py line 28: join the six
two-character slices `mac_hex[48:60][i:i+2] for i in range(0, 12, 2)` with
a colon, then uppercase the result. -/
def macFromHex (data : List Nat) : List Char :=
  let s := ((bytesHexChars data).drop 48).take 12
  let slices := [s.take 2, (s.drop 2).take 2, (s.drop 4).take 2,
    (s.drop 6).take 2, (s.drop 8).take 2, (s.drop 10).take 2]
  ((slices.intersperse [':']).flatten).map Char.toUpper

/-- Constant `LAMNTONIX_MAC_PREFIX` of lantronix_utils.py line 4, the
vendor OUI. -/
def lantronixOui : String := "00:80:A3"

/-- Embeds `parse_responses` (lantronix_utils.py lines 6-35): keep only
replies of exactly `LANTRONIX_RESPONSE_SIZE = 30` bytes whose extracted MAC
begins with the vendor OUI; each kept reply yields its MAC and the sender
IP.  (The `try`/`except` around the body guards operations that are total
here, so no exception path is reachable in the model.) -/
def parseResponses : List Datagram → List LanDeviceEntry
  | [] => []
  | d :: ds =>
    if d.payload.length ≠ 30 then parseResponses ds
    else
      let mac := macFromHex d.payload
      if ¬ (lantronixOui.toList.isPrefixOf mac) then parseResponses ds
      else ⟨⟨mac⟩, d.senderIp⟩ :: parseResponses ds

/-- Embeds `discover_lantronix_devices` (identical control flow in the
synchronous variant, lantronix_device_discovery.py lines 73-91, and the
async variant, lines 80-98): iterate over the enumerated interfaces one
after the other; skip an interface whose broadcast got no replies; parse
the first interface whose replies survive parsing and return those entries
at once; return `[]` when every interface is exhausted.  `scans` is the
per-interface reply list, in `get_active_ethernet_ips()` order. -/
def discoverLantronixDevices : List (List Datagram) → List LanDeviceEntry
  | [] => []
  | responses :: rest =>
    if responses.isEmpty then discoverLantronixDevices rest
    else
      let device_list := parseResponses responses
      if device_list.isEmpty then discoverLantronixDevices rest
      else device_list

/-- Spec-side MAC of a discovery reply, written from the words of the spec:
the six bytes starting at byte offset 24, rendered as uppercase
colon-separated hex pairs.  It is compared with the source-side
`macFromHex`, which slices hex characters 48-60 out of the hex-encoded
payload. -/
def specMacChars (payload : List Nat) : List Char :=
  ((((payload.drop 24).take 6).map byteHexChars).intersperse [':']).flatten.map Char.toUpper

/-- Spec-side keep/drop decision for one discovery reply: keep exactly the
30-byte replies whose byte-offset-24 MAC bears the vendor OUI. -/
def specKeepReply (d : Datagram) : Option LanDeviceEntry :=
  if d.payload.length = 30 ∧ lantronixOui.toList.isPrefixOf (specMacChars d.payload) then
    some ⟨⟨specMacChars d.payload⟩, d.senderIp⟩
  else
    none

/-- A valid 30-byte discovery reply from 192.168.0.10 carrying the vendor
OUI `00:80:a3` at byte offset 24 (device MAC 00:80:A3:01:02:03). -/
def exDatagramA : Datagram :=
  ⟨List.replicate 24 0 ++ [0, 128, 163, 1, 2, 3], "192.168.0.10", 30718⟩

/-- A second valid 30-byte discovery reply, from 192.168.0.11 on a second
interface (device MAC 00:80:A3:04:05:06). -/
def exDatagramB : Datagram :=
  ⟨List.replicate 24 0 ++ [0, 128, 163, 4, 5, 6], "192.168.0.11", 30718⟩

/-! ## Device discovery enrichment (device_discovery.py)

File shared_types.py (the `DetectedDevice` dataclass and `TransportType`)
is not part of the sources at hand; its shape is modelled from the spec. -/

/-- Modelled from the spec: `TransportType` of `nv200.shared_types`, which
is missing from the sources — a detected device reaches the caller over
either the network (Telnet) or a serial link. -/
inductive TransportType where
  | telnet
  | serial
  deriving DecidableEq, Repr

/-- Modelled from the spec: `DetectedDevice` of `nv200.shared_types`, which
is missing from the sources — transport kind, identifier (IP or port name),
optional MAC, and the optional enrichment fields `actuator_name` /
`actuator_serial` that `_enrich_device_info` fills in. -/
structure DetectedDevice where
  transport : TransportType
  identifier : String
  mac : Option String
  actuator_name : Option String
  actuator_serial : Option String
  deriving DecidableEq, Repr

/-- Behaviour of the device of one candidate during its enrichment round
trip: the connect may raise, the `get_device_type` query may raise, or the
query answers with a device-family string after which the actuator
name/serial queries either raise (`Except.error`) or answer. -/
inductive EnrichEnv where
  | connectError
  | typeQueryError
  | typeIs (devType : String) (details : Except Unit (String × String))
  deriving Repr

/-- Embeds `_enrich_device_info` (device_discovery.py lines 24-49): any
exception out of the connect or the queries is caught by the
`except Exception` handler and converted to `None`; a device-family string
that does not start with `"NV200/D_NET"` is also converted to `None`;
otherwise the candidate is returned with its actuator name and serial
filled in. -/
def enrichDeviceInfo (d : DetectedDevice) (env : EnrichEnv) : Option DetectedDevice :=
  match env with
  | .connectError => none
  | .typeQueryError => none
  | .typeIs devType details =>
    if ¬ (("NV200/D_NET".toList).isPrefixOf devType.toList) then none
    else
      match details with
      | .error _ => none
      | .ok (n, s) => some { d with actuator_name := some n, actuator_serial := some s }

/-- The `EXTENDED_INFO` stage of `discover_devices` (device_discovery.py
lines 99-105): `asyncio.gather` over `_enrich_device_info(d)` for each
candidate returns the per-candidate results in candidate order — every
coroutine catches its own exceptions and returns `None` instead, so the
gather never receives, propagates, or cancels on a failure — and the final
comprehension keeps the non-`None` results. -/
def enrichStage (candidates : List (DetectedDevice × EnrichEnv)) : List DetectedDevice :=
  (candidates.map (fun c => enrichDeviceInfo c.1 c.2)).filterMap id

/-- Network candidate used in concrete enrichment scenarios. -/
def candOkDevice : DetectedDevice :=
  ⟨.telnet, "192.168.10.2", some "00:80:A3:01:02:03", none, none⟩

/-- Serial candidate whose enrichment connect fails in the concrete
scenarios. -/
def candFailDevice : DetectedDevice :=
  ⟨.serial, "COM3", none, none, none⟩

/-- Network candidate answering with a foreign device family in the
concrete scenarios. -/
def candWrongDevice : DetectedDevice :=
  ⟨.telnet, "192.168.10.4", none, none, none⟩

/-! ## The is_running query of the waveform generator
(waveform_generator.py lines 185-193) -/

/-- A Python runtime value, as far as the `is_running` comparison needs:
the `int` produced by `read_int_value` and the `str` literal `"1"`. -/
inductive PyVal where
  | int (n : Int)
  | str (s : String)
  deriving DecidableEq, Repr

/-- Python `==` between runtime values: an `int` and a `str` are never
equal (no implicit conversion; `int.__eq__` answers `NotImplemented`
against a `str` and the fallback comparison is `False`). -/
def pyEq : PyVal → PyVal → Bool
  | .int m, .int n => m = n
  | .str s, .str t => s = t
  | _, _ => false

/-- Embeds `DeviceClient.read_int_value` applied to the parameter list of a
parsed response: `int((await self.read_values(cmd))[0])`; an empty list
raises `IndexError`, a non-numeric first parameter raises `ValueError`. -/
def readIntValue (values : List String) : Except String Int :=
  match values with
  | [] => .error "IndexError"
  | v :: _ =>
    match pyIntOfChars v.toList with
    | some n => .ok n
    | none => .error "ValueError"

/-- Embeds `WaveformGenerator.is_running`:
`response = await read_int_value('grun')` followed by
`return response == "1"` — the parsed `int` compared against the string
literal `"1"`. -/
def isRunning (values : List String) : Except String Bool :=
  match readIntValue values with
  | .ok n => .ok (pyEq (.int n) (.str "1"))
  | .error e => .error e

/-! ## Helper lemmas -/

/-- Concrete evaluation: a 100 ms recording request yields buffer length
2000, stride 1 and sample rate 20000 Hz. -/
theorem recorder_eval_100 : setRecordingDurationMs 100 = Except.ok ⟨2000, 1, 20000⟩ := by
  unfold setRecordingDurationMs setSampleBufferSize pyTrunc
    NV200_RECORDER_SAMPLE_RATE_HZ NV200_RECORDER_BUFFER_SIZE
  norm_num

/-- Concrete evaluation: a 0.1 Hz sinusoid is quantized to sample factor
196 (period 9800 µs = 9.8 ms) and 1020 generated samples. -/
theorem sine_eval_tenth :
    (generateSineWave (1/10)).sample_factor = 196 ∧
    (generateSineWave (1/10)).sample_time_us = 9800 ∧
    (generateSineWave (1/10)).times_ms.length = 1020 := by
  have hceil : ⌈(1000000:ℚ) / (1/10) / ((1024:ℤ) : ℚ) / 50⌉ = 196 := by
    rw [Int.ceil_eq_iff]
    norm_num
  unfold generateSineWave NV200_WAVEFORM_BUFFER_SIZE NV200_BASE_SAMPLE_TIME_US pyTrunc
  dsimp only
  rw [hceil]
  refine ⟨by norm_num, by norm_num, ?_⟩
  rw [List.length_map, List.length_range]
  norm_num
  rfl

/-- Dropping `2 * k` characters of a byte-pair hex encoding drops `k`
bytes. -/
theorem flatMap_pair_drop (k : Nat) (l : List Nat) :
    (l.flatMap byteHexChars).drop (2 * k) = (l.drop k).flatMap byteHexChars := by
  induction k generalizing l with
  | zero => simp
  | succ k ih =>
    cases l with
    | nil => simp
    | cons b bs =>
      rw [List.flatMap_cons, show 2 * (k + 1) = 2 * k + 1 + 1 by ring]
      show ((hexDigit (b / 16 % 16) :: hexDigit (b % 16) :: bs.flatMap byteHexChars).drop
        (2 * k + 1 + 1)) = _
      rw [List.drop_succ_cons, List.drop_succ_cons, ih]
      simp

/-- Taking `2 * k` characters of a byte-pair hex encoding takes `k`
bytes. -/
theorem flatMap_pair_take (k : Nat) (l : List Nat) :
    (l.flatMap byteHexChars).take (2 * k) = (l.take k).flatMap byteHexChars := by
  induction k generalizing l with
  | zero => simp
  | succ k ih =>
    cases l with
    | nil => simp
    | cons b bs =>
      rw [List.flatMap_cons, show 2 * (k + 1) = 2 * k + 1 + 1 by ring]
      show ((hexDigit (b / 16 % 16) :: hexDigit (b % 16) :: bs.flatMap byteHexChars).take
        (2 * k + 1 + 1)) = _
      rw [List.take_succ_cons, List.take_succ_cons, ih]
      simp [byteHexChars]

/-- On a 30-byte payload, slicing hex characters 48-60 out of the
hex-encoded payload (the source) reads exactly the six bytes at byte
offset 24 (the spec). -/
theorem macFromHex_eq_spec (payload : List Nat) (h : payload.length = 30) :
    macFromHex payload = specMacChars payload := by
  have hd : ((bytesHexChars payload).drop 48).take 12
      = ((payload.drop 24).take 6).flatMap byteHexChars := by
    rw [bytesHexChars, show (48:ℕ) = 2 * 24 by norm_num, flatMap_pair_drop,
      show (12:ℕ) = 2 * 6 by norm_num, flatMap_pair_take]
  have h6 : ((payload.drop 24).take 6).length = 6 := by
    simp [List.length_take, List.length_drop, h]
  obtain ⟨b0, b1, b2, b3, b4, b5, h66⟩ :
      ∃ b0 b1 b2 b3 b4 b5, (payload.drop 24).take 6 = [b0, b1, b2, b3, b4, b5] := by
    rcases l6 : (payload.drop 24).take 6 with
        _ | ⟨x0, _ | ⟨x1, _ | ⟨x2, _ | ⟨x3, _ | ⟨x4, _ | ⟨x5, tail⟩⟩⟩⟩⟩⟩ <;>
      rw [l6] at h6 <;> simp at h6
    · exact ⟨x0, x1, x2, x3, x4, x5, by rw [h6]⟩
  rw [macFromHex, specMacChars, hd, h66]
  rfl

/-! ## Claims -/

/-- C1: decoding an error-sentinel response does NOT always raise a
`DeviceError`: a sentinel line whose code field fails integer parsing
reaches `DeviceError(1)` whose constructor itself crashes with
`AttributeError` (the int literal `1` has no `.value` attribute), and a
bare sentinel line without any comma falls through the parser and returns
`None`; only a sentinel line with a parsable code raises the documented
`DeviceError`. -/
theorem claim_C1_error_sentinel_outcomes :
    parseResponse "error,abc" = ParseOutcome.attributeError ∧
    parseResponse "error" = ParseOutcome.retNone ∧
    parseResponse "error,5\r\n" = ParseOutcome.deviceError 5 := by
  decide

/-- C2: for every positive requested recording duration D ms,
`set_recording_duration_ms` returns exactly the plan of the claim:
stride = floor((D/1000) / (C/R)) + 1 with R = 20000 and C = 6144,
effective rate = R / stride, and
buffer length = min(ceil(rate * D/1000), C). -/
theorem claim_C2_recording_duration_plan (ms : ℚ) (h0 : 0 < ms) :
    setRecordingDurationMs ms =
      Except.ok ⟨min ⌈(20000 / ((⌊ms / 1000 / ((6144:ℚ) / 20000)⌋ + 1 : ℤ) : ℚ)) * (ms / 1000)⌉ 6144,
                 ⌊ms / 1000 / ((6144:ℚ) / 20000)⌋ + 1,
                 20000 / ((⌊ms / 1000 / ((6144:ℚ) / 20000)⌋ + 1 : ℤ) : ℚ)⟩ := by
  have hpos : 0 < ms / 1000 / ((6144:ℚ) / 20000) := by positivity
  have hfl : 0 ≤ ⌊ms / 1000 / ((6144:ℚ) / 20000)⌋ := Int.floor_nonneg.mpr (le_of_lt hpos)
  have hratepos : 0 < 20000 / ((⌊ms / 1000 / ((6144:ℚ) / 20000)⌋ + 1 : ℤ) : ℚ) := by
    have hc : (0:ℚ) < ((⌊ms / 1000 / ((6144:ℚ) / 20000)⌋ + 1 : ℤ) : ℚ) := by
      exact_mod_cast (by omega : (0:ℤ) < ⌊ms / 1000 / ((6144:ℚ) / 20000)⌋ + 1)
    positivity
  have hbuf : 1 ≤ min ⌈(20000 / ((⌊ms / 1000 / ((6144:ℚ) / 20000)⌋ + 1 : ℤ) : ℚ)) * (ms / 1000)⌉ 6144 := by
    refine le_min ?_ (by norm_num)
    refine Int.ceil_pos.mpr ?_
    have hms : 0 < ms / 1000 := by positivity
    exact mul_pos hratepos hms
  have hargN : ms / 1000 / (1 / (20000:ℚ) * ((6144:ℤ) : ℚ)) = ms / 1000 / ((6144:ℚ) / 20000) := by
    norm_num
  simp only [setRecordingDurationMs, setSampleBufferSize, NV200_RECORDER_SAMPLE_RATE_HZ,
    NV200_RECORDER_BUFFER_SIZE, pyTrunc, hargN, if_pos (le_of_lt hpos)]
  rw [if_pos ⟨hbuf, min_le_right _ _⟩]

/-- C2 witness: at D = 100 ms the returned plan is buffer length 2000,
stride 1, sample rate 20000 Hz. -/
theorem claim_C2_witness :
    (0:ℚ) < 100 ∧ setRecordingDurationMs 100 = Except.ok ⟨2000, 1, 20000⟩ := by
  refine ⟨by norm_num, ?_⟩
  rw [claim_C2_recording_duration_plan 100 (by norm_num)]
  norm_num [RecorderParam.mk.injEq]

/-- C3: for every target frequency f > 0 the sinusoid generator quantizes
the ideal sample time (1/f)/N, N = 1024, upward to a multiple of the 50 µs
base unit (sample_factor = ceil of ideal/50, sample period =
sample_factor * 50 µs) and generates floor((1/f) / sample_period)
samples. -/
theorem claim_C3_sine_quantization (f : ℚ) (hf : 0 < f) :
    (generateSineWave f).sample_factor = ⌈(1 / f * 1000000 / 1024) / 50⌉ ∧
    (generateSineWave f).sample_time_us = ((generateSineWave f).sample_factor : ℚ) * 50 ∧
    ((generateSineWave f).times_ms.length : ℤ) =
      ⌊(1 / f * 1000000) / (generateSineWave f).sample_time_us⌋ := by
  have harg : (1000000 / f / ((1024:ℤ) : ℚ)) / 50 = (1 / f * 1000000 / 1024) / 50 := by
    push_cast
    ring
  have hst : 0 < (⌈1000000 / f / ((1024:ℤ) : ℚ) / 50⌉ : ℚ) * 50 := by
    have h1 : (1:ℚ) ≤ (⌈1000000 / f / ((1024:ℤ) : ℚ) / 50⌉ : ℚ) := by
      exact_mod_cast Int.ceil_pos.mpr (by positivity : 0 < 1000000 / f / ((1024:ℤ) : ℚ) / 50)
    nlinarith
  have hq : 0 ≤ 1000000 / f / ((⌈1000000 / f / ((1024:ℤ) : ℚ) / 50⌉ : ℚ) * 50) :=
    le_of_lt (by positivity)
  unfold generateSineWave NV200_WAVEFORM_BUFFER_SIZE NV200_BASE_SAMPLE_TIME_US
  dsimp only
  rw [pyTrunc, if_pos hq, List.length_map, List.length_range]
  refine ⟨by rw [harg], rfl, ?_⟩
  rw [Int.toNat_of_nonneg (Int.floor_nonneg.mpr hq)]
  congr 1
  ring

/-- C3 witness: at f = 0.1 Hz the generator uses sample factor 196, sample
period 9800 µs = 9.8 ms, and 1020 samples, and the general quantization
formulas hold there. -/
theorem claim_C3_witness :
    (0:ℚ) < 1/10 ∧
    ((generateSineWave (1/10)).sample_factor = ⌈((1:ℚ) / (1/10) * 1000000 / 1024) / 50⌉ ∧
     (generateSineWave (1/10)).sample_time_us = ((generateSineWave (1/10)).sample_factor : ℚ) * 50 ∧
     ((generateSineWave (1/10)).times_ms.length : ℤ) =
       ⌊(1 / (1/10) * 1000000) / (generateSineWave (1/10)).sample_time_us⌋) ∧
    (generateSineWave (1/10)).sample_factor = 196 ∧
    (generateSineWave (1/10)).sample_time_us = 9800 ∧
    (generateSineWave (1/10)).times_ms.length = 1020 :=
  ⟨by norm_num, claim_C3_sine_quantization (1/10) (by norm_num),
   sine_eval_tenth.1, sine_eval_tenth.2.1, sine_eval_tenth.2.2⟩

/-- C4: for every command string, the write operation maps an expired reply
deadline to the empty result `None` while the read operation turns its
expired deadline into a raised `TimeoutError`. -/
theorem claim_C4_timeout_asymmetry (cmd : String) :
    clientWrite cmd none = WriteOutcome.timedOutNone ∧
    clientRead cmd none = ReadOutcome.timeoutError :=
  ⟨rfl, rfl⟩

/-- C5: for every requested duration D ≥ 0 ms, whenever
`set_recording_duration_ms` returns a plan, that plan has buffer length at
most the hardware capacity 6144 and stride at least 1.  (For D = 0 the
computed buffer length is 0 and the function raises `ValueError` out of
`set_sample_buffer_size` instead of returning a plan.) -/
theorem claim_C5_recorder_plan_invariants (ms : ℚ) (p : RecorderParam) (h0 : 0 ≤ ms)
    (hok : setRecordingDurationMs ms = Except.ok p) :
    p.bufsize ≤ NV200_RECORDER_BUFFER_SIZE ∧ 1 ≤ p.stride := by
  have hnn : 0 ≤ ms / 1000 / (1 / NV200_RECORDER_SAMPLE_RATE_HZ * (NV200_RECORDER_BUFFER_SIZE : ℚ)) := by
    unfold NV200_RECORDER_SAMPLE_RATE_HZ NV200_RECORDER_BUFFER_SIZE
    positivity
  simp only [setRecordingDurationMs, pyTrunc, if_pos hnn] at hok
  revert hok
  split
  · intro hok
    cases hok
    have hfl : 0 ≤ ⌊ms / 1000 / (1 / NV200_RECORDER_SAMPLE_RATE_HZ * (NV200_RECORDER_BUFFER_SIZE : ℚ))⌋ :=
      Int.floor_nonneg.mpr hnn
    refine ⟨min_le_right _ _, ?_⟩
    dsimp only
    omega
  · intro hok
    cases hok

/-- C5 witness: at D = 100 ms the plan exists and satisfies both
invariants. -/
theorem claim_C5_witness :
    ((0:ℚ) ≤ 100 ∧ setRecordingDurationMs 100 = Except.ok ⟨2000, 1, 20000⟩) ∧
    (RecorderParam.mk 2000 1 20000).bufsize ≤ NV200_RECORDER_BUFFER_SIZE ∧
    1 ≤ (RecorderParam.mk 2000 1 20000).stride :=
  ⟨⟨by norm_num, recorder_eval_100⟩,
   claim_C5_recorder_plan_invariants 100 ⟨2000, 1, 20000⟩ (by norm_num) recorder_eval_100⟩

/-- C6: for every target frequency f > 0, the number of generated samples
never exceeds the maximum buffer length 1024, because the sample period is
rounded upward to a multiple of the base unit. -/
theorem claim_C6_sine_buffer_bound (f : ℚ) (hf : 0 < f) :
    ((generateSineWave f).times_ms.length : ℤ) ≤ NV200_WAVEFORM_BUFFER_SIZE := by
  have hceil : (1000000 / f / ((1024:ℤ) : ℚ) / 50) ≤ (⌈1000000 / f / ((1024:ℤ) : ℚ) / 50⌉ : ℚ) :=
    Int.le_ceil _
  have hst : 0 < (⌈1000000 / f / ((1024:ℤ) : ℚ) / 50⌉ : ℚ) * 50 := by
    have h1 : (1:ℚ) ≤ (⌈1000000 / f / ((1024:ℤ) : ℚ) / 50⌉ : ℚ) := by
      exact_mod_cast Int.ceil_pos.mpr (by positivity : 0 < 1000000 / f / ((1024:ℤ) : ℚ) / 50)
    nlinarith
  have hq : 0 ≤ 1000000 / f / ((⌈1000000 / f / ((1024:ℤ) : ℚ) / 50⌉ : ℚ) * 50) :=
    le_of_lt (by positivity)
  have hdivle : 1000000 / f / ((⌈1000000 / f / ((1024:ℤ) : ℚ) / 50⌉ : ℚ) * 50) ≤ 1024 := by
    rw [div_le_iff₀ hst]
    have hp : 0 < (1000000:ℚ) / f := by positivity
    push_cast at hceil ⊢
    nlinarith
  unfold generateSineWave NV200_WAVEFORM_BUFFER_SIZE NV200_BASE_SAMPLE_TIME_US
  dsimp only
  rw [pyTrunc, if_pos hq, List.length_map, List.length_range,
    Int.toNat_of_nonneg (Int.floor_nonneg.mpr hq)]
  calc ⌊1000000 / f / ((⌈1000000 / f / ((1024:ℤ) : ℚ) / 50⌉ : ℚ) * 50)⌋
      ≤ ⌊(1024:ℚ)⌋ := Int.floor_mono hdivle
    _ = 1024 := by norm_num

/-- C6 witness: the bound holds at f = 0.1 Hz. -/
theorem claim_C6_witness :
    (0:ℚ) < 1/10 ∧ ((generateSineWave (1/10)).times_ms.length : ℤ) ≤ NV200_WAVEFORM_BUFFER_SIZE :=
  ⟨by norm_num, claim_C6_sine_buffer_bound (1/10) (by norm_num)⟩

/-- C7 counterexample: with two interfaces each receiving one valid reply
(distinct devices A and B), the scan returns only the entry of the first
interface; the validated reply of the second interface is absent from the
result, so the result is not the union of validated replies across all
interfaces. -/
theorem claim_C7_counterexample :
    parseResponses [exDatagramB] = [⟨"00:80:A3:04:05:06", "192.168.0.11"⟩] ∧
    discoverLantronixDevices [[exDatagramA], [exDatagramB]]
      = [⟨"00:80:A3:01:02:03", "192.168.0.10"⟩] ∧
    (⟨"00:80:A3:04:05:06", "192.168.0.11"⟩ : LanDeviceEntry)
      ∉ discoverLantronixDevices [[exDatagramA], [exDatagramB]] := by
  decide

/-- C7 amended: the scan probes interfaces sequentially in enumeration
order and returns the parsed entries of the first interface whose replies
yield at least one validated entry (the empty list when no interface
does); it does not form the union across interfaces. -/
theorem claim_C7_first_hit_scan (scans : List (List Datagram)) :
    discoverLantronixDevices scans =
      ((scans.map parseResponses).filter (fun l => !l.isEmpty)).headD [] := by
  induction scans with
  | nil => rfl
  | cons responses rest ih =>
    by_cases hr : responses.isEmpty
    · have h0 : responses = [] := List.isEmpty_iff.mp hr
      subst h0
      rw [show discoverLantronixDevices ([] :: rest) = discoverLantronixDevices rest from rfl]
      rw [ih]
      rfl
    · by_cases hp : (parseResponses responses).isEmpty
      · simp only [discoverLantronixDevices, if_neg (by simp [hr] : ¬ responses.isEmpty = true)]
        rw [if_pos hp, ih]
        simp [List.isEmpty_iff.mp hp]
      · simp only [discoverLantronixDevices, if_neg (by simp [hr] : ¬ responses.isEmpty = true)]
        rw [if_neg hp]
        simp [hp]

/-- C8: reply parsing keeps exactly the replies whose payload is exactly
30 bytes and whose MAC — the six bytes at byte offset 24, equivalently hex
characters 48-60 of the hex-encoded payload — begins with the vendor OUI
00:80:A3; every other reply is dropped, and each kept reply yields its MAC
and the sender IP. -/
theorem claim_C8_reply_filtering (rs : List Datagram) :
    parseResponses rs = rs.filterMap specKeepReply := by
  induction rs with
  | nil => rfl
  | cons d ds ih =>
    by_cases h30 : d.payload.length = 30
    · have hmac := macFromHex_eq_spec d.payload h30
      by_cases hpre : lantronixOui.toList.isPrefixOf (macFromHex d.payload)
      · have hpre2 : lantronixOui.toList.isPrefixOf (specMacChars d.payload) = true := by
          rwa [hmac] at hpre
        rw [List.isPrefixOf_iff_prefix] at hpre2
        simp only [String.toList] at hpre2
        simp [parseResponses, specKeepReply, h30, hmac, hpre, hpre2, List.filterMap_cons, ih]
      · have hpre2 : ¬ lantronixOui.toList.isPrefixOf (specMacChars d.payload) = true := by
          rwa [hmac] at hpre
        rw [List.isPrefixOf_iff_prefix] at hpre2
        simp only [String.toList] at hpre2
        simp [parseResponses, specKeepReply, h30, hmac, hpre, hpre2, List.filterMap_cons, ih]
    · simp [parseResponses, specKeepReply, h30, ih]

/-- C9: enrichment discards a candidate whose connect fails, whose identity
query fails, whose device-family string lacks the expected prefix, or
whose detail queries fail; and in the enrichment stage a discarded
candidate contributes nothing while leaving the outcome of every sibling
candidate unchanged — no failure propagates out of the stage. -/
theorem claim_C9_enrichment_isolation :
    (∀ d : DetectedDevice, enrichDeviceInfo d .connectError = none) ∧
    (∀ d : DetectedDevice, enrichDeviceInfo d .typeQueryError = none) ∧
    (∀ (d : DetectedDevice) (t : String) (details : Except Unit (String × String)),
      ¬ ("NV200/D_NET".toList.isPrefixOf t.toList) →
        enrichDeviceInfo d (.typeIs t details) = none) ∧
    (∀ (d : DetectedDevice) (t : String),
      enrichDeviceInfo d (.typeIs t (.error ())) = none) ∧
    (∀ (pre post : List (DetectedDevice × EnrichEnv)) (x : DetectedDevice × EnrichEnv),
      enrichDeviceInfo x.1 x.2 = none →
        enrichStage (pre ++ x :: post) = enrichStage (pre ++ post)) := by
  refine ⟨fun d => rfl, fun d => rfl, ?_, ?_, ?_⟩
  · intro d t details ht
    rw [List.isPrefixOf_iff_prefix] at ht
    simp only [String.toList] at ht
    simp [enrichDeviceInfo, ht]
  · intro d t
    by_cases ht : ("NV200/D_NET".toList.isPrefixOf t.toList)
    · simp [enrichDeviceInfo, ht]
    · simp [enrichDeviceInfo, ht]
  · intro pre post x hx
    simp [enrichStage, List.map_append, List.filterMap_append, hx]

/-- C9 witness: a concrete three-candidate enrichment in which the middle
candidate fails to connect and the third answers with a foreign device
family; the failing candidate drops out without disturbing its siblings,
and the matching candidate alone survives, enriched. -/
theorem claim_C9_witness :
    enrichDeviceInfo candFailDevice .connectError = none ∧
    enrichDeviceInfo candWrongDevice (.typeIs "SPI Controller V1.0" (.ok ("n", "s"))) = none ∧
    enrichStage [(candOkDevice, .typeIs "NV200/D_NET V2.1" (.ok ("TiSc", "1001"))),
                 (candFailDevice, .connectError),
                 (candWrongDevice, .typeIs "SPI Controller V1.0" (.ok ("n", "s")))]
      = enrichStage [(candOkDevice, .typeIs "NV200/D_NET V2.1" (.ok ("TiSc", "1001"))),
                     (candWrongDevice, .typeIs "SPI Controller V1.0" (.ok ("n", "s")))] ∧
    enrichStage [(candOkDevice, .typeIs "NV200/D_NET V2.1" (.ok ("TiSc", "1001"))),
                 (candWrongDevice, .typeIs "SPI Controller V1.0" (.ok ("n", "s")))]
      = [{ candOkDevice with actuator_name := some "TiSc", actuator_serial := some "1001" }] := by
  have h := claim_C9_enrichment_isolation
  exact ⟨h.1 candFailDevice,
         h.2.2.1 candWrongDevice "SPI Controller V1.0" (.ok ("n", "s")) (by decide),
         h.2.2.2.2 [(candOkDevice, .typeIs "NV200/D_NET V2.1" (.ok ("TiSc", "1001")))]
           [(candWrongDevice, .typeIs "SPI Controller V1.0" (.ok ("n", "s")))]
           (candFailDevice, .connectError) (h.1 candFailDevice),
         by decide⟩

/-- C10: whenever the is_running query returns at all (the response parsed
as an integer), it returns False, because the parsed integer is compared
for equality against the string "1" and a Python int never equals a
str. -/
theorem claim_C10_is_running_false (values : List String) (b : Bool)
    (h : isRunning values = Except.ok b) : b = false := by
  unfold isRunning at h
  cases hr : readIntValue values with
  | ok n =>
    rw [hr] at h
    cases h
    rfl
  | error e =>
    rw [hr] at h
    simp at h

/-- C10 witness: a device reply of "1" (generator actually running) still
yields False. -/
theorem claim_C10_witness : isRunning ["1"] = Except.ok false ∧ false = false := by
  have h : isRunning ["1"] = Except.ok false := by decide
  exact ⟨h, claim_C10_is_running_false ["1"] false h⟩

end NV200
